import Mathlib

/-!
Shallow embedding of the battle and progression core of the repository
(src/battle.rs together with the pieces of src/main.rs it relies on).

Conventions of the embedding:

* Rust usize fields become Nat, isize fields become Int (health is isize
  in the source, everything else in the stat bundles is usize, as forced
  by the unsigned subtractions and casts in calculate_turn).
* Entities are opaque handles, modelled as natural numbers; the Element
  enum is cast to usize for table indexing in the source and is modelled
  directly by that index.
* The two random draws of calculate_turn and the enemy action draw of
  key_press_handler come from thread_rng in the source; here they are
  explicit inputs.
* f32 arithmetic of the type effectiveness table is modelled by exact
  rationals; trunc-toward-zero followed by the saturating cast to usize
  is ratTruncToUsize.
* A source unwrap that would panic is modelled by returning none.
* The files monster.rs and world.rs are not part of the excerpt; every
  definition taken from the specification instead of those files carries
  a doc comment starting with: Modelled from the spec.
-/

/-- Entity handles, modelled as natural numbers. -/
abbrev Entity := Nat

/-- Element tags; the closed enum is cast to usize for indexing the type
table in the source, so the model uses the index itself. -/
abbrev Element := Nat

/-- Health component: health is isize in the source, max_health is usize. -/
structure Health where
  health : Int
  max_health : Nat
deriving DecidableEq

/-- Strength component of a combatant (all fields usize in the source). -/
structure Strength where
  atk : Nat
  crt : Nat
  crt_dmg : Nat
deriving DecidableEq

/-- Defense component of a combatant (all fields usize in the source). -/
structure Defense where
  «def» : Nat
  crt_res : Nat
deriving DecidableEq

/-- Level component. -/
structure Level where
  level : Nat
deriving DecidableEq

/-- The MonsterStats bundle, with the field names used by battle.rs
(stats.lvl.level, stats.hp.health, stats.stg.atk, stats.def.def,
stats.typing). -/
structure MonsterStats where
  lvl : Level
  hp : Health
  stg : Strength
  «def» : Defense
  typing : Element
deriving DecidableEq

/-- The immutable type effectiveness table: a total square matrix of
multipliers, read as type_modifier[attacker][defender]. The f32 entries
are modelled as exact rationals. -/
structure TypeSystem where
  type_modifier : Element → Element → ℚ

/-- The outer game states of main.rs. -/
inductive GameState where
  | Start
  | Pause
  | StartPlaying
  | Playing
  | Battle
  | PreHost
  | PrePeer
  | HostBattle
  | PeerBattle
  | Credits
  | Help
  | MultiplayerMenu
deriving DecidableEq

/-- Models `.trunc() as usize` applied to an exact-rational value: truncate
toward zero, then the saturating cast to usize. For nonnegative values the
floor and the truncation agree, and for negative values both the truncated
cast and floor-then-toNat yield 0. -/
def ratTruncToUsize (q : ℚ) : Nat := (⌊q⌋).toNat

/-- The per-direction damage computation of calculate_turn (battle.rs
duplicates this block verbatim for the two directions): zero when the
attack does not exceed the defense, otherwise the difference, multiplied
by the crit multiplier when the crit branch is enabled
(attacker.crt > defender.crt_res) and the roll is at most the chance. -/
def raw_damage (atk_side : Strength) (def_side : Defense) (crit_roll : Nat) : Nat :=
  if atk_side.atk ≤ def_side.«def» then 0
  else
    let d := atk_side.atk - def_side.«def»
    if def_side.crt_res < atk_side.crt then
      let crit_chance := atk_side.crt - def_side.crt_res
      if crit_roll ≤ crit_chance then d * atk_side.crt_dmg else d
    else d

/-- Embedding of calculate_turn (battle.rs): actions are the codes of the
source, 0 attack, 1 defend, 2 elemental, 3 special. The two crit rolls,
drawn from thread_rng inside the source, are explicit inputs here. -/
def calculate_turn (player_stg : Strength) (player_def : Defense)
    (player_type : Element) (player_action : Nat)
    (enemy_stg : Strength) (enemy_def : Defense)
    (enemy_type : Element) (enemy_action : Nat)
    (type_system : TypeSystem)
    (player_crit_roll enemy_crit_roll : Nat) : Int × Int :=
  if player_action = 1 ∨ enemy_action = 1 then
    (0, 0)
  else
    let r0 := raw_damage player_stg enemy_def player_crit_roll
    let r1 := raw_damage enemy_stg player_def enemy_crit_roll
    let r0 := if player_action = 2 then
        ratTruncToUsize (type_system.type_modifier player_type enemy_type * (r0 : ℚ))
      else r0
    let r1 := if enemy_action = 2 then
        ratTruncToUsize (type_system.type_modifier enemy_type player_type * (r1 : ℚ))
      else r1
    ((r0 : Int), (r1 : Int))

/-- Embedding of the monster_level_up! macro (battle.rs) as the pure stat
bundle transformation it applies: level, max health, attack, crit and
defense grow, and health is set to the new max health afterwards. -/
def monster_level_up (stats : MonsterStats) (up_by : Nat) : MonsterStats :=
  { stats with
    lvl := { level := stats.lvl.level + 1 * up_by }
    hp := { health := ((stats.hp.max_health + 10 * up_by : Nat) : Int)
            max_health := stats.hp.max_health + 10 * up_by }
    stg := { stats.stg with
             atk := stats.stg.atk + 2 * up_by
             crt := stats.stg.crt + 5 * up_by }
    «def» := { stats.«def» with «def» := stats.«def».«def» + 1 * up_by } }

/-- Assoc-list model of a HashMap from entities to stat bundles; only the
latest binding of an entity is visible. -/
def lookupStats : List (Entity × MonsterStats) → Entity → Option MonsterStats
  | [], _ => none
  | (k, v) :: rest, e => if k = e then some v else lookupStats rest e

/-- HashMap removal. -/
def removeStats (m : List (Entity × MonsterStats)) (e : Entity) :
    List (Entity × MonsterStats) :=
  m.filter (fun p => p.1 != e)

/-- HashMap insertion (replacing any previous binding). -/
def insertStats (m : List (Entity × MonsterStats)) (e : Entity)
    (v : MonsterStats) : List (Entity × MonsterStats) :=
  (e, v) :: removeStats m e

/-- The GameProgress resource (world.rs, mirrored from the specification
and its uses in battle.rs and main.rs). The ordinal-keyed map
monster_id_entity is represented by list position, insertion order being
the cycle order; turns_left_of_buff and player_inventory are the fixed
arrays indexed by buff and item kind. -/
structure GameProgress where
  monster_id_entity : List Entity
  monster_entity_to_stats : List (Entity × MonsterStats)
  enemy_stats : List (Entity × MonsterStats)
  num_living_monsters : Nat
  current_level : Nat
  turns_left_of_buff : List Nat
  player_inventory : List Nat
  num_boss_defeated : Nat
deriving DecidableEq

/-- Modelled from the spec: world.rs is not in the excerpt. win_boss is the
boss progress counter update; defeating a boss increments
num_boss_defeated by one. -/
def GameProgress.win_boss (gp : GameProgress) : GameProgress :=
  { gp with num_boss_defeated := gp.num_boss_defeated + 1 }

/-- Modelled from the spec: world.rs is not in the excerpt. win_battle
updates score counters for ordinary victories and leaves every field
tracked here, in particular num_boss_defeated, unchanged. -/
def GameProgress.win_battle (gp : GameProgress) : GameProgress := gp

/-- Modelled from the spec: world.rs is not in the excerpt.
get_quest_rewards grants quest rewards for an element type; quests are out
of scope and no tracked progression field changes. -/
def GameProgress.get_quest_rewards (gp : GameProgress) (_element : Element) :
    GameProgress := gp

/-- Modelled from the spec: world.rs is not in the excerpt. new_monster
registers a monster with the progression ledger: the next ordinal maps to
the handle and the stat bundle is recorded as the source of truth for
leveling. -/
def GameProgress.new_monster (gp : GameProgress) (e : Entity)
    (stats : MonsterStats) : GameProgress :=
  { gp with
    monster_id_entity := gp.monster_id_entity ++ [e]
    monster_entity_to_stats := insertStats gp.monster_entity_to_stats e stats }

/-- Whether the ledger records the monster as living (health above zero in
its registered bundle). -/
def GameProgress.isLiving (gp : GameProgress) (e : Entity) : Bool :=
  match lookupStats gp.monster_entity_to_stats e with
  | some st => decide (0 < st.hp.health)
  | none => false

/-- Modelled from the spec: world.rs is not in the excerpt. Cyclic switch:
iterate roster ordinals starting just after the ordinal of the current
monster, wrapping to 0, skipping monsters at health at most 0 and the
current monster itself; the first living candidate, or none. -/
def GameProgress.next_monster_cyclic (gp : GameProgress) (cur : Entity) :
    Option Entity :=
  match gp.monster_id_entity.findIdx? (fun e => e == cur) with
  | none => none
  | some k =>
    let n := gp.monster_id_entity.length
    let order := (List.range n).map (fun i => (k + 1 + i) % n)
    let candidates := order.filterMap (fun i => gp.monster_id_entity.get? i)
    (candidates.filter (fun e => e != cur && gp.isLiving e)).head?

/-- The monster_level_up! macro acting on the ledger: reads the bundle of
the monster from monster_entity_to_stats (none models the unwrap panic
when it is absent), applies monster_level_up, writes the map back, and
also returns the new bundle, which the deferred commands install as the
live components of the entity. -/
def monster_level_up_in (gp : GameProgress) (m : Entity) (up_by : Nat) :
    Option (GameProgress × MonsterStats) :=
  match lookupStats gp.monster_entity_to_stats m with
  | none => none
  | some st =>
    let st1 := monster_level_up st up_by
    some ({ gp with monster_entity_to_stats :=
              insertStats gp.monster_entity_to_stats m st1 }, st1)

/-- One row of the party_monsters query of key_press_handler:
(&mut Health, &mut Strength, &mut Defense, Entity, &Element), restricted
to monsters with PartyMonster but neither SelectedMonster nor Enemy. -/
structure PartyEntry where
  hp : Health
  stg : Strength
  «def» : Defense
  entity : Entity
  typing : Element
deriving DecidableEq

/-- The battle-relevant world state read by one run of key_press_handler:
the component bindings of the two queried combatants, the party query, the
set of entities holding SelectedMonster, and the GameProgress resource.
Both combatants are present; the empty-query early exits of the source
bail straight back to the overworld and concern states outside this
representation. -/
structure BattleState where
  player_health : Health
  player_stg : Strength
  player_def : Defense
  player_entity : Entity
  player_type : Element
  enemy_health : Health
  enemy_stg : Strength
  enemy_def : Defense
  enemy_entity : Entity
  enemy_boss : Bool
  enemy_type : Element
  party_monsters : List PartyEntry
  selected : List Entity
  game_progress : GameProgress
deriving DecidableEq

/-- The end-of-tick state after the deferred commands have been applied:
live components, the SelectedMonster set, the progression resource, and
the outward tag and state-transition signals of the tick. -/
structure TickResult where
  player_health : Health
  player_stg : Strength
  player_def : Defense
  enemy_health : Health
  enemy_stg : Strength
  enemy_def : Defense
  party_monsters : List PartyEntry
  selected : List Entity
  game_progress : GameProgress
  enemy_tag_removed : Bool
  boss_tag_removed : Bool
  enemy_added_to_party : Bool
  npc_spawned : Bool
  next_state : Option GameState
deriving DecidableEq

/-- The battle keys dispatched by key_press_handler (A attack, E elemental
attack, Q abort, D defend, C cycle, Key1 heal item, Key2 strength buff);
NoKey models a tick on which none of the handled keys was just pressed. -/
inductive KeyPress where
  | A
  | E
  | Q
  | D
  | C
  | Key1
  | Key2
  | NoKey
deriving DecidableEq

/-- Membership list update for a marker tag removal command. -/
def tagRemove (tags : List Entity) (e : Entity) : List Entity :=
  tags.filter (fun x => x != e)

/-- Membership list update for a marker tag insertion command. -/
def tagInsert (tags : List Entity) (e : Entity) : List Entity :=
  if tags.contains e then tags else tags ++ [e]

/-- Embedding of the end_battle! macro (battle.rs): remove the enemy from
enemy_stats, reset SelectedMonster to the monster at ordinal 0 (none
models the unwrap panic on an empty roster). The macro also strips the
Enemy tag and queues NextState(Playing); callers record those two
effects. -/
def end_battle (gp : GameProgress) (selected : List Entity)
    (my_monster enemy_monster : Entity) :
    Option (GameProgress × List Entity) :=
  let gp1 := { gp with enemy_stats := removeStats gp.enemy_stats enemy_monster }
  match gp1.monster_id_entity.get? 0 with
  | none => none
  | some first_monster =>
    some (gp1, tagInsert (tagRemove selected my_monster) first_monster)

/-- The party loop of the heal-item branch of key_press_handler: a party
monster at health at most 0 bumps num_living_monsters before the clamped
heal is applied; faithfully to the source, the bump does not re-check that
the heal actually brings the monster above 0. -/
def heal_party (gp : GameProgress) (party : List PartyEntry)
    (heal_amount : Int) : GameProgress × List PartyEntry :=
  match party with
  | [] => (gp, [])
  | pm :: rest =>
    let gp1 := if pm.hp.health ≤ 0 then
        { gp with num_living_monsters := gp.num_living_monsters + 1 }
      else gp
    let hp1 := if (pm.hp.max_health : Int) < pm.hp.health + heal_amount then
        { pm.hp with health := (pm.hp.max_health : Int) }
      else
        { pm.hp with health := pm.hp.health + heal_amount }
    let next := heal_party gp1 rest heal_amount
    (next.1, { pm with hp := hp1 } :: next.2)

/-- The level-up loop over the party query rows: each row is leveled up by
1 through the ledger, and its live components are replaced by the new
bundle by the deferred commands; none models an unwrap panic on a party
monster missing from the ledger. -/
def level_up_party (gp : GameProgress) (party : List PartyEntry) :
    Option (GameProgress × List PartyEntry) :=
  match party with
  | [] => some (gp, [])
  | pm :: rest =>
    match monster_level_up_in gp pm.entity 1 with
    | none => none
    | some (gp1, st) =>
      match level_up_party gp1 rest with
      | none => none
      | some (gp2, rest1) =>
        some (gp2, { hp := st.hp, stg := st.stg, «def» := st.«def»,
                     entity := pm.entity, typing := st.typing } :: rest1)

/-- The tick result when a dispatched branch changes nothing beyond what
the pre-turn dead check already did. -/
def carryResult (s : BattleState) (gp0 : GameProgress) (sel0 : List Entity)
    (etag0 : Bool) (ns0 : Option GameState) : TickResult :=
  { player_health := s.player_health
    player_stg := s.player_stg
    player_def := s.player_def
    enemy_health := s.enemy_health
    enemy_stg := s.enemy_stg
    enemy_def := s.enemy_def
    party_monsters := s.party_monsters
    selected := sel0
    game_progress := gp0
    enemy_tag_removed := etag0
    boss_tag_removed := false
    enemy_added_to_party := false
    npc_spawned := false
    next_state := ns0 }

/-- The body shared by the A (player action 0) and E (player action 2) key
branches of key_press_handler; the two source blocks are identical up to
the action code and the order of the commuting win_boss and
get_quest_rewards calls. The strength buff is applied to the live attack
stat only around the calculate_turn call and reverted immediately after,
so the resulting live Strength is unchanged. gp0, sel0, etag0 and ns0 are
the progression resource, SelectedMonster set, Enemy-tag-removed flag and
queued next state as left by the pre-turn dead check. -/
def attack_branch (player_action : Nat) (s : BattleState)
    (gp0 : GameProgress) (sel0 : List Entity) (etag0 : Bool)
    (ns0 : Option GameState)
    (enemy_action player_crit_roll enemy_crit_roll : Nat)
    (type_system : TypeSystem) : Option TickResult :=
  let buff := gp0.turns_left_of_buff.getD 0 0
  let str_buff_damage := if 0 < buff then gp0.current_level else 0
  let gp1 := if 0 < buff then
      { gp0 with turns_left_of_buff := gp0.turns_left_of_buff.set 0 (buff - 1) }
    else gp0
  let buffed_stg := { s.player_stg with atk := s.player_stg.atk + str_buff_damage }
  let turn_result : Int × Int := calculate_turn buffed_stg s.player_def
    s.player_type player_action s.enemy_stg s.enemy_def s.enemy_type
    enemy_action type_system player_crit_roll enemy_crit_roll
  let player_health1 : Health :=
    { s.player_health with health := s.player_health.health - turn_result.2 }
  let enemy_health1 : Health :=
    { s.enemy_health with health := s.enemy_health.health - turn_result.1 }
  if enemy_health1.health ≤ 0 then
    match lookupStats gp1.enemy_stats s.enemy_entity with
    | none => none
    | some captured =>
      let new_monster_stats := { captured with
        hp := { health := ((gp1.current_level * 10 : Nat) : Int)
                max_health := gp1.current_level * 10 } }
      let gp2 := { gp1 with enemy_stats := removeStats gp1.enemy_stats s.enemy_entity }
      let gp3 := (gp2.new_monster s.enemy_entity new_monster_stats)
      let gp4 := if s.enemy_boss then
          (gp3.get_quest_rewards s.enemy_type).win_boss
        else
          (gp3.win_battle).get_quest_rewards s.enemy_type
      match level_up_party gp4 s.party_monsters with
      | none => none
      | some (gp5, party1) =>
        match monster_level_up_in gp5 s.player_entity 1 with
        | none => none
        | some (gp6, player_bundle) =>
          match monster_level_up_in gp6 s.enemy_entity 1 with
          | none => none
          | some (gp7, enemy_bundle) =>
            match end_battle gp7 sel0 s.player_entity s.enemy_entity with
            | none => none
            | some (gp8, sel1) =>
              some { player_health := player_bundle.hp
                     player_stg := player_bundle.stg
                     player_def := player_bundle.«def»
                     enemy_health := enemy_bundle.hp
                     enemy_stg := enemy_bundle.stg
                     enemy_def := enemy_bundle.«def»
                     party_monsters := party1
                     selected := sel1
                     game_progress := gp8
                     enemy_tag_removed := true
                     boss_tag_removed := s.enemy_boss
                     enemy_added_to_party := true
                     npc_spawned := s.enemy_boss
                     next_state := some GameState.Playing }
  else if player_health1.health ≤ 0 then
    let gp2 := { gp1 with num_living_monsters := gp1.num_living_monsters - 1 }
    match gp2.next_monster_cyclic s.player_entity with
    | none =>
      match end_battle gp2 sel0 s.player_entity s.enemy_entity with
      | none => none
      | some (gp3, sel1) =>
        some { carryResult s gp3 sel1 true (some GameState.Playing) with
               player_health := player_health1
               enemy_health := enemy_health1 }
    | some next_monster =>
      some { carryResult s gp2
               (tagInsert (tagRemove sel0 s.player_entity) next_monster)
               etag0 ns0 with
             player_health := player_health1
             enemy_health := enemy_health1 }
  else
    some { carryResult s gp1 sel0 etag0 ns0 with
           player_health := player_health1
           enemy_health := enemy_health1 }

/-- The key dispatch of key_press_handler (battle.rs): the chain of
input.just_pressed branches, run after the pre-turn dead check has left
the progression resource gp0, the SelectedMonster set sel0, the
Enemy-tag-removed flag etag0 and the queued next state ns0. -/
def dispatch_key (input : KeyPress) (s : BattleState) (gp0 : GameProgress)
    (sel0 : List Entity) (etag0 : Bool) (ns0 : Option GameState)
    (enemy_action player_crit_roll enemy_crit_roll : Nat)
    (type_system : TypeSystem) : Option TickResult :=
  match input with
  | KeyPress.A =>
    attack_branch 0 s gp0 sel0 etag0 ns0 enemy_action player_crit_roll
      enemy_crit_roll type_system
  | KeyPress.E =>
    attack_branch 2 s gp0 sel0 etag0 ns0 enemy_action player_crit_roll
      enemy_crit_roll type_system
  | KeyPress.Q =>
    some (carryResult s gp0 sel0 true (some GameState.Playing))
  | KeyPress.D =>
    some (carryResult s gp0 sel0 etag0 ns0)
  | KeyPress.C =>
    match gp0.next_monster_cyclic s.player_entity with
    | none => some (carryResult s gp0 sel0 etag0 ns0)
    | some next_monster =>
      some (carryResult s gp0
              (tagInsert (tagRemove sel0 s.player_entity) next_monster)
              etag0 ns0)
  | KeyPress.Key1 =>
    if 0 < gp0.player_inventory.getD 0 0 then
      let gp1 := { gp0 with player_inventory :=
          gp0.player_inventory.set 0 (gp0.player_inventory.getD 0 0 - 1) }
      let heal_amount : Int := ((gp1.current_level * 3 : Nat) : Int)
      let healed := heal_party gp1 s.party_monsters heal_amount
      let player_health1 :=
        if (s.player_health.max_health : Int) <
            s.player_health.health + heal_amount then
          { s.player_health with health := (s.player_health.max_health : Int) }
        else
          { s.player_health with health := s.player_health.health + heal_amount }
      some { carryResult s healed.1 sel0 etag0 ns0 with
             player_health := player_health1
             party_monsters := healed.2 }
    else
      some (carryResult s gp0 sel0 etag0 ns0)
  | KeyPress.Key2 =>
    if 0 < gp0.player_inventory.getD 1 0 then
      some (carryResult s
        { gp0 with
          player_inventory :=
            gp0.player_inventory.set 1 (gp0.player_inventory.getD 1 0 - 1)
          turns_left_of_buff := gp0.turns_left_of_buff.set 0 5 }
        sel0 etag0 ns0)
    else
      some (carryResult s gp0 sel0 etag0 ns0)
  | KeyPress.NoKey =>
    some (carryResult s gp0 sel0 etag0 ns0)

/-- One tick of key_press_handler (battle.rs), with both combatants
present. The pre-turn dead check runs first and, crucially, the source
does not return from it: the pressed key is still dispatched afterwards on
the same component bindings. The enemy action code and the two crit rolls
stand for the thread_rng draws of the tick; none models a panicking
unwrap. -/
def key_press_handler (input : KeyPress) (s : BattleState)
    (enemy_action player_crit_roll enemy_crit_roll : Nat)
    (type_system : TypeSystem) : Option TickResult :=
  let pre : Option (GameProgress × List Entity × Bool × Option GameState) :=
    if s.player_health.health ≤ 0 then
      match s.game_progress.next_monster_cyclic s.player_entity with
      | none =>
        match end_battle s.game_progress s.selected s.player_entity s.enemy_entity with
        | none => none
        | some (gp1, sel1) => some (gp1, sel1, true, some GameState.Playing)
      | some next_monster =>
        some (s.game_progress,
              tagInsert (tagRemove s.selected s.player_entity) next_monster,
              false, none)
    else
      some (s.game_progress, s.selected, false, none)
  match pre with
  | none => none
  | some (gp0, sel0, etag0, ns0) =>
    dispatch_key input s gp0 sel0 etag0 ns0 enemy_action player_crit_roll
      enemy_crit_roll type_system

/-- Embedding of win_game (main.rs): run on every Playing tick, it queues
the transition inserted through NextState, if any. -/
def win_game (gp : GameProgress) : Option GameState :=
  if gp.num_boss_defeated = 5 then some GameState.Credits else none

/-! ## Helper lemmas -/

theorem ratTruncToUsize_natCast (n : Nat) : ratTruncToUsize (n : ℚ) = n := by
  simp [ratTruncToUsize]

theorem calculate_turn_fst_plain (ps : Strength) (pd : Defense) (pt : Element)
    (es : Strength) (ed : Defense) (et : Element) (ts : TypeSystem)
    (pr er : Nat) :
    (calculate_turn ps pd pt 0 es ed et 0 ts pr er).1 =
      ((raw_damage ps ed pr : Nat) : Int) := by
  simp [calculate_turn]

theorem calculate_turn_snd_plain (ps : Strength) (pd : Defense) (pt : Element)
    (es : Strength) (ed : Defense) (et : Element) (ts : TypeSystem)
    (pr er : Nat) :
    (calculate_turn ps pd pt 0 es ed et 0 ts pr er).2 =
      ((raw_damage es pd er : Nat) : Int) := by
  simp [calculate_turn]

theorem calculate_turn_fst_elemental (ps : Strength) (pd : Defense)
    (pt : Element) (es : Strength) (ed : Defense) (et : Element)
    (ts : TypeSystem) (pr er : Nat) :
    (calculate_turn ps pd pt 2 es ed et 0 ts pr er).1 =
      ((ratTruncToUsize (ts.type_modifier pt et *
          ((raw_damage ps ed pr : Nat) : ℚ)) : Nat) : Int) := by
  simp [calculate_turn]

theorem raw_damage_eq (a : Strength) (d : Defense) (roll : Nat) :
    raw_damage a d roll =
      if d.crt_res < a.crt ∧ roll ≤ a.crt - d.crt_res then
        (a.atk - d.«def») * a.crt_dmg
      else a.atk - d.«def» := by
  simp only [raw_damage]
  split_ifs with h1 h2 h3 h4 h5 h6 h7 <;>
    first
      | rfl
      | (exfalso; omega)
      | simp [Nat.sub_eq_zero_of_le h1]

theorem calculate_turn_nonneg (ps : Strength) (pd : Defense) (pt : Element)
    (pa : Nat) (es : Strength) (ed : Defense) (et : Element) (ea : Nat)
    (ts : TypeSystem) (pr er : Nat) :
    0 ≤ (calculate_turn ps pd pt pa es ed et ea ts pr er).1 ∧
      0 ≤ (calculate_turn ps pd pt pa es ed et ea ts pr er).2 := by
  unfold calculate_turn
  split
  · simp
  · constructor <;> (split <;> exact Int.natCast_nonneg _)

/-! ## Claim theorems -/

/-- Claim C5: for every pair of combatant stats, types and type table, if
either action is Defend (code 1) then calculate_turn returns (0, 0). -/
theorem calculate_turn_defend_zero (ps : Strength) (pd : Defense)
    (pt : Element) (pa : Nat) (es : Strength) (ed : Defense) (et : Element)
    (ea : Nat) (ts : TypeSystem) (pr er : Nat)
    (h : pa = 1 ∨ ea = 1) :
    calculate_turn ps pd pt pa es ed et ea ts pr er = (0, 0) := by
  unfold calculate_turn
  rw [if_pos h]

/-- Witness for C5 at a concrete defending pair. -/
theorem calculate_turn_defend_zero_witness :
    ((1 : Nat) = 1 ∨ (0 : Nat) = 1) ∧
      calculate_turn ⟨12, 3, 2⟩ ⟨5, 1⟩ 0 1 ⟨9, 4, 3⟩ ⟨7, 0⟩ 1 0
        ⟨fun _ _ => 2⟩ 0 0 = (0, 0) :=
  ⟨Or.inl rfl,
   calculate_turn_defend_zero ⟨12, 3, 2⟩ ⟨5, 1⟩ 0 1 ⟨9, 4, 3⟩ ⟨7, 0⟩ 1 0
     ⟨fun _ _ => 2⟩ 0 0 (Or.inl rfl)⟩

/-- Claim C6: per-direction damage with the crit roll as an explicit
input. The base damage, the truncated natural subtraction of the source,
is exactly max(0, atk − def), with no minimum-1 floor; the crit multiplier
crt_dmg applies exactly when attacker.crt > defender.crt_res and the roll
is at most the chance attacker.crt − defender.crt_res, in both directions
independently; a roll of 0 always crits when the chance is positive, and a
roll of 100 never crits when the chance is below 100. -/
theorem damage_direction_formula (ps : Strength) (pd : Defense)
    (pt : Element) (es : Strength) (ed : Defense) (et : Element)
    (ts : TypeSystem) (pr er : Nat) :
    ((ps.atk - ed.«def» : Nat) : Int) =
        max 0 ((ps.atk : Int) - (ed.«def» : Int)) ∧
    (calculate_turn ps pd pt 0 es ed et 0 ts pr er).1 =
        ((if ed.crt_res < ps.crt ∧ pr ≤ ps.crt - ed.crt_res then
            (ps.atk - ed.«def») * ps.crt_dmg
          else ps.atk - ed.«def» : Nat) : Int) ∧
    (calculate_turn ps pd pt 0 es ed et 0 ts pr er).2 =
        ((if pd.crt_res < es.crt ∧ er ≤ es.crt - pd.crt_res then
            (es.atk - pd.«def») * es.crt_dmg
          else es.atk - pd.«def» : Nat) : Int) ∧
    (0 < ps.crt - ed.crt_res →
      (calculate_turn ps pd pt 0 es ed et 0 ts 0 er).1 =
        (((ps.atk - ed.«def») * ps.crt_dmg : Nat) : Int)) ∧
    (ps.crt - ed.crt_res < 100 →
      (calculate_turn ps pd pt 0 es ed et 0 ts 100 er).1 =
        ((ps.atk - ed.«def» : Nat) : Int)) := by
  refine ⟨by omega, ?_, ?_, ?_, ?_⟩
  · rw [calculate_turn_fst_plain, raw_damage_eq]
  · rw [calculate_turn_snd_plain, raw_damage_eq]
  · intro hpos
    rw [calculate_turn_fst_plain, raw_damage_eq]
    rw [if_pos ⟨by omega, Nat.zero_le _⟩]
  · intro hlt
    rw [calculate_turn_fst_plain, raw_damage_eq]
    rw [if_neg (fun h => by omega)]

/-- Witness for C6: with crt 10 against crt_res 2 the chance is 8, so the
roll 0 crits (damage (12 − 7) * 3 = 15) and the roll 100 does not
(damage 5). -/
theorem damage_direction_formula_witness :
    (0 < (10 : Nat) - 2 ∧ (10 : Nat) - 2 < 100) ∧
    (calculate_turn ⟨12, 10, 3⟩ ⟨5, 1⟩ 0 0 ⟨9, 1, 2⟩ ⟨7, 2⟩ 1 0
        ⟨fun _ _ => 2⟩ 0 50).1 = 15 ∧
    (calculate_turn ⟨12, 10, 3⟩ ⟨5, 1⟩ 0 0 ⟨9, 1, 2⟩ ⟨7, 2⟩ 1 0
        ⟨fun _ _ => 2⟩ 100 50).1 = 5 := by
  have h := damage_direction_formula ⟨12, 10, 3⟩ ⟨5, 1⟩ 0 ⟨9, 1, 2⟩ ⟨7, 2⟩ 1
    ⟨fun _ _ => 2⟩ 37 50
  refine ⟨by decide, ?_, ?_⟩
  · rw [h.2.2.2.1 (by decide)]; decide
  · rw [h.2.2.2.2 (by decide)]; decide

/-- Claim C7: when the acting side uses the Elemental action, its damage
is the truncation toward zero of the effectiveness multiplier times the
damage the same stats and roll produce non-elementally, and a multiplier
of exactly 1 reproduces the non-elemental damage exactly. The f32 table
entries are modelled as exact rationals. -/
theorem elemental_damage_trunc (ps : Strength) (pd : Defense) (pt : Element)
    (es : Strength) (ed : Defense) (et : Element) (ts : TypeSystem)
    (pr er : Nat) :
    (calculate_turn ps pd pt 2 es ed et 0 ts pr er).1 =
      ((ratTruncToUsize (ts.type_modifier pt et *
          (((calculate_turn ps pd pt 0 es ed et 0 ts pr er).1.toNat : Nat) : ℚ))
        : Nat) : Int) ∧
    (ts.type_modifier pt et = 1 →
      (calculate_turn ps pd pt 2 es ed et 0 ts pr er).1 =
        (calculate_turn ps pd pt 0 es ed et 0 ts pr er).1) := by
  constructor
  · rw [calculate_turn_fst_elemental, calculate_turn_fst_plain]
    simp
  · intro h1
    rw [calculate_turn_fst_elemental, calculate_turn_fst_plain, h1, one_mul,
      ratTruncToUsize_natCast]

/-- Witness for C7 with the multiplier 1: the elemental damage equals the
plain damage 12 − 5 = 7. -/
theorem elemental_damage_trunc_witness :
    (TypeSystem.type_modifier ⟨fun _ _ => 1⟩ 0 1 = 1) ∧
    (calculate_turn ⟨12, 0, 3⟩ ⟨5, 1⟩ 0 2 ⟨9, 1, 2⟩ ⟨7, 2⟩ 1 0
        ⟨fun _ _ => 1⟩ 0 50).1 =
      (calculate_turn ⟨12, 0, 3⟩ ⟨5, 1⟩ 0 0 ⟨9, 1, 2⟩ ⟨7, 2⟩ 1 0
        ⟨fun _ _ => 1⟩ 0 50).1 :=
  ⟨rfl,
   (elemental_damage_trunc ⟨12, 0, 3⟩ ⟨5, 1⟩ 0 ⟨9, 1, 2⟩ ⟨7, 2⟩ 1
     ⟨fun _ _ => 1⟩ 0 50).2 rfl⟩

/-- Claim C8: for every stat bundle and every by at least 1,
monster_level_up adds 1*by to level, 10*by to max health, 2*by to attack,
5*by to crit and 1*by to defense, and sets health exactly to the new max
health; in particular leveling by 1 fully restores health. -/
theorem monster_level_up_spec (st : MonsterStats) (up_by : Nat)
    (_h : 1 ≤ up_by) :
    (monster_level_up st up_by).lvl.level = st.lvl.level + 1 * up_by ∧
    (monster_level_up st up_by).hp.max_health = st.hp.max_health + 10 * up_by ∧
    (monster_level_up st up_by).stg.atk = st.stg.atk + 2 * up_by ∧
    (monster_level_up st up_by).stg.crt = st.stg.crt + 5 * up_by ∧
    (monster_level_up st up_by).«def».«def» = st.«def».«def» + 1 * up_by ∧
    (monster_level_up st up_by).hp.health =
      (((monster_level_up st up_by).hp.max_health : Nat) : Int) :=
  ⟨rfl, rfl, rfl, rfl, rfl, rfl⟩

/-- Witness for C8 at a concrete bundle and by = 1. -/
theorem monster_level_up_spec_witness :
    (1 ≤ 1) ∧
    ((monster_level_up ⟨⟨1⟩, ⟨3, 10⟩, ⟨2, 5, 2⟩, ⟨1, 0⟩, 0⟩ 1).lvl.level =
        1 + 1 * 1 ∧
      (monster_level_up ⟨⟨1⟩, ⟨3, 10⟩, ⟨2, 5, 2⟩, ⟨1, 0⟩, 0⟩ 1).hp.max_health =
        10 + 10 * 1 ∧
      (monster_level_up ⟨⟨1⟩, ⟨3, 10⟩, ⟨2, 5, 2⟩, ⟨1, 0⟩, 0⟩ 1).stg.atk =
        2 + 2 * 1 ∧
      (monster_level_up ⟨⟨1⟩, ⟨3, 10⟩, ⟨2, 5, 2⟩, ⟨1, 0⟩, 0⟩ 1).stg.crt =
        5 + 5 * 1 ∧
      (monster_level_up ⟨⟨1⟩, ⟨3, 10⟩, ⟨2, 5, 2⟩, ⟨1, 0⟩, 0⟩ 1).«def».«def» =
        1 + 1 * 1 ∧
      (monster_level_up ⟨⟨1⟩, ⟨3, 10⟩, ⟨2, 5, 2⟩, ⟨1, 0⟩, 0⟩ 1).hp.health =
        (((monster_level_up ⟨⟨1⟩, ⟨3, 10⟩, ⟨2, 5, 2⟩, ⟨1, 0⟩, 0⟩ 1).hp.max_health
          : Nat) : Int)) :=
  ⟨Nat.le_refl 1,
   monster_level_up_spec ⟨⟨1⟩, ⟨3, 10⟩, ⟨2, 5, 2⟩, ⟨1, 0⟩, 0⟩ 1 (Nat.le_refl 1)⟩

/-- Claim C10: win_game queues the Credits transition exactly when
num_boss_defeated equals 5, and queues nothing otherwise. -/
theorem win_game_credits_iff (gp : GameProgress) :
    win_game gp = some GameState.Credits ↔ gp.num_boss_defeated = 5 := by
  unfold win_game
  split
  · rename_i h
    simp [h]
  · rename_i h
    simp [h]

/-- Witness for C10 at boss counts 5 and 4. -/
theorem win_game_credits_iff_witness :
    win_game ⟨[], [], [], 0, 1, [0], [0, 0], 5⟩ = some GameState.Credits ∧
      ¬ win_game ⟨[], [], [], 0, 1, [0], [0, 0], 4⟩ = some GameState.Credits :=
  ⟨(win_game_credits_iff ⟨[], [], [], 0, 1, [0], [0, 0], 5⟩).2 rfl,
   fun hc =>
     absurd ((win_game_credits_iff ⟨[], [], [], 0, 1, [0], [0, 0], 4⟩).1 hc)
       (by decide)⟩

/-! ## Concrete battle states for the state-machine claims -/

/-- A type table with every multiplier 1, for concrete runs. -/
def tsOne : TypeSystem := ⟨fun _ _ => 1⟩

/-- A defeated party monster at health -2. -/
def stDead : MonsterStats := ⟨⟨1⟩, ⟨-2, 10⟩, ⟨3, 0, 2⟩, ⟨1, 0⟩, 0⟩

/-- A living party monster at health 5. -/
def stAlive : MonsterStats := ⟨⟨1⟩, ⟨5, 10⟩, ⟨3, 0, 2⟩, ⟨1, 0⟩, 0⟩

/-- A fallen party monster at health -10. -/
def stFallen : MonsterStats := ⟨⟨1⟩, ⟨-10, 10⟩, ⟨3, 0, 2⟩, ⟨1, 0⟩, 0⟩

/-- A healthy player monster bundle. -/
def stPlayer : MonsterStats := ⟨⟨1⟩, ⟨10, 10⟩, ⟨5, 0, 2⟩, ⟨1, 0⟩, 0⟩

/-- An ordinary enemy bundle recorded in enemy_stats. -/
def stEnemy : MonsterStats := ⟨⟨1⟩, ⟨8, 10⟩, ⟨4, 0, 2⟩, ⟨1, 0⟩, 1⟩

/-- A boss enemy bundle recorded in enemy_stats. -/
def stBoss : MonsterStats := ⟨⟨2⟩, ⟨40, 40⟩, ⟨2, 0, 2⟩, ⟨1, 0⟩, 1⟩

/-- A battle in which the selected monster (entity 1) is already dead and
party monster 2 is alive, the enemy (entity 3) having plenty of health. -/
def cexDeadPlayer : BattleState :=
  ⟨⟨-2, 10⟩, ⟨3, 0, 2⟩, ⟨1, 0⟩, 1, 0,
   ⟨50, 50⟩, ⟨4, 0, 2⟩, ⟨1, 0⟩, 3, false, 1,
   [⟨⟨5, 10⟩, ⟨3, 0, 2⟩, ⟨1, 0⟩, 2, 0⟩],
   [1],
   ⟨[1, 2], [(1, stDead), (2, stAlive)], [(3, stEnemy)], 2, 1, [0], [0, 0], 0⟩⟩

/-- The same battle with the selected monster alive at health 5. -/
def witAlivePlayer : BattleState :=
  ⟨⟨5, 10⟩, ⟨3, 0, 2⟩, ⟨1, 0⟩, 1, 0,
   ⟨50, 50⟩, ⟨4, 0, 2⟩, ⟨1, 0⟩, 3, false, 1,
   [⟨⟨5, 10⟩, ⟨3, 0, 2⟩, ⟨1, 0⟩, 2, 0⟩],
   [1],
   ⟨[1, 2], [(1, stAlive), (2, stAlive)], [(3, stEnemy)], 2, 1, [0], [0, 0], 0⟩⟩

/-- A battle against a boss (entity 3) about to fall to a plain attack:
its live health is 2 and the incoming damage is 5 − 1 = 4. -/
def cexBossKill : BattleState :=
  ⟨⟨10, 10⟩, ⟨5, 0, 2⟩, ⟨1, 0⟩, 1, 0,
   ⟨2, 40⟩, ⟨2, 0, 2⟩, ⟨1, 0⟩, 3, true, 1,
   [⟨⟨5, 10⟩, ⟨3, 0, 2⟩, ⟨1, 0⟩, 2, 0⟩],
   [1],
   ⟨[1, 2], [(1, stPlayer), (2, stAlive)], [(3, stBoss)], 2, 1, [0], [0, 0], 0⟩⟩

/-- A battle holding one heal item while party monster 2 lies at health
-10: the heal of current_level * 3 = 3 cannot revive it. -/
def cexHeal : BattleState :=
  ⟨⟨5, 10⟩, ⟨5, 0, 2⟩, ⟨1, 0⟩, 1, 0,
   ⟨8, 10⟩, ⟨4, 0, 2⟩, ⟨1, 0⟩, 3, false, 1,
   [⟨⟨-10, 10⟩, ⟨3, 0, 2⟩, ⟨1, 0⟩, 2, 0⟩],
   [1],
   ⟨[1, 2], [(1, stPlayer), (2, stFallen)], [(3, stEnemy)], 1, 1, [0], [1, 0], 0⟩⟩

/-- A battle with a living selected monster and a recorded enemy_stats
entry for the enemy, ready to be aborted. -/
def cexAbort : BattleState :=
  ⟨⟨5, 10⟩, ⟨5, 0, 2⟩, ⟨1, 0⟩, 1, 0,
   ⟨8, 10⟩, ⟨4, 0, 2⟩, ⟨1, 0⟩, 3, false, 1,
   [],
   [1],
   ⟨[1], [(1, stPlayer)], [(3, stEnemy)], 1, 1, [0], [0, 0], 0⟩⟩

/-! ## Claims C9, C2, C1, C4 -/

/-- Counterexample to claim C9 as stated: pressing D while the selected
monster is dead is not a no-op on all battle state — the pre-turn check
switches SelectedMonster from entity 1 to entity 2 on that very tick. -/
theorem defend_key_changes_state_cex :
    (key_press_handler KeyPress.D cexDeadPlayer 0 0 0 tsOne).map
        (fun r => r.selected) = some [2] ∧
      cexDeadPlayer.selected = [1] := by decide

/-- Claim C9 as amended: when the selected monster is alive, pressing D is
a complete no-op — no damage on either side, no party change, no
progression change, no tag change, no NPC, and no state transition; the
result is also independent of every random draw, as none is consumed. -/
theorem defend_key_noop (s : BattleState) (ea pr er : Nat) (ts : TypeSystem)
    (h : 0 < s.player_health.health) :
    ∃ r, key_press_handler KeyPress.D s ea pr er ts = some r ∧
      r.player_health = s.player_health ∧
      r.player_stg = s.player_stg ∧
      r.player_def = s.player_def ∧
      r.enemy_health = s.enemy_health ∧
      r.party_monsters = s.party_monsters ∧
      r.selected = s.selected ∧
      r.game_progress = s.game_progress ∧
      r.enemy_tag_removed = false ∧
      r.boss_tag_removed = false ∧
      r.enemy_added_to_party = false ∧
      r.npc_spawned = false ∧
      r.next_state = none := by
  refine ⟨carryResult s s.game_progress s.selected false none, ?_,
    rfl, rfl, rfl, rfl, rfl, rfl, rfl, rfl, rfl, rfl, rfl, rfl⟩
  unfold key_press_handler
  rw [if_neg (by omega)]
  rfl

/-- Witness for C9 as amended, at a concrete living battle state. -/
theorem defend_key_noop_witness :
    (0 < witAlivePlayer.player_health.health) ∧
    (∃ r, key_press_handler KeyPress.D witAlivePlayer 1 2 3 tsOne = some r ∧
      r.player_health = witAlivePlayer.player_health ∧
      r.player_stg = witAlivePlayer.player_stg ∧
      r.player_def = witAlivePlayer.player_def ∧
      r.enemy_health = witAlivePlayer.enemy_health ∧
      r.party_monsters = witAlivePlayer.party_monsters ∧
      r.selected = witAlivePlayer.selected ∧
      r.game_progress = witAlivePlayer.game_progress ∧
      r.enemy_tag_removed = false ∧
      r.boss_tag_removed = false ∧
      r.enemy_added_to_party = false ∧
      r.npc_spawned = false ∧
      r.next_state = none) :=
  ⟨by decide, defend_key_noop witAlivePlayer 1 2 3 tsOne (by decide)⟩

/-- Counterexample to claim C2 as stated: on a tick whose selected monster
is already dead, pressing A both performs the switch (SelectedMonster
moves to entity 2) and still processes the attack — the enemy loses
50 − 48 = 2 health on the same tick. -/
theorem dead_player_tick_still_attacks_cex :
    cexDeadPlayer.player_health.health ≤ 0 ∧
    (key_press_handler KeyPress.A cexDeadPlayer 0 100 100 tsOne).map
        (fun r => (r.enemy_health.health, r.selected)) = some (48, [2]) ∧
    cexDeadPlayer.enemy_health.health = 50 := by decide

/-- Claim C2 as amended: when the selected monster is already dead on an
attack tick (here with no strength buff pending and the enemy surviving
the blow), the handler performs the switch to the next living monster and
then still processes the pressed attack on the same tick with the
pre-switch component bindings: the enemy action is drawn, damage is
exchanged, and the dead monster is counted out of num_living_monsters. -/
theorem dead_player_precheck_then_action (s : BattleState) (ea pr er : Nat)
    (ts : TypeSystem) (nm : Entity)
    (hdead : s.player_health.health ≤ 0)
    (hnext : s.game_progress.next_monster_cyclic s.player_entity = some nm)
    (hbuff : s.game_progress.turns_left_of_buff.getD 0 0 = 0)
    (hsurvive : 0 < s.enemy_health.health -
      (calculate_turn s.player_stg s.player_def s.player_type 0 s.enemy_stg
        s.enemy_def s.enemy_type ea ts pr er).1) :
    ∃ r, key_press_handler KeyPress.A s ea pr er ts = some r ∧
      r.enemy_health.health = s.enemy_health.health -
        (calculate_turn s.player_stg s.player_def s.player_type 0 s.enemy_stg
          s.enemy_def s.enemy_type ea ts pr er).1 ∧
      r.selected = tagInsert (tagRemove (tagInsert (tagRemove s.selected
        s.player_entity) nm) s.player_entity) nm ∧
      r.game_progress.num_living_monsters =
        s.game_progress.num_living_monsters - 1 ∧
      r.next_state = none := by
  have hnon := (calculate_turn_nonneg s.player_stg s.player_def s.player_type
    0 s.enemy_stg s.enemy_def s.enemy_type ea ts pr er).2
  have step1 : key_press_handler KeyPress.A s ea pr er ts =
      attack_branch 0 s s.game_progress
        (tagInsert (tagRemove s.selected s.player_entity) nm) false none
        ea pr er ts := by
    unfold key_press_handler
    rw [if_pos hdead, hnext]
    rfl
  rw [step1]
  unfold attack_branch
  have heta : Strength.mk s.player_stg.atk s.player_stg.crt
      s.player_stg.crt_dmg = s.player_stg := rfl
  simp only [hbuff, lt_self_iff_false, if_false, Nat.add_zero, heta]
  rw [if_neg (by omega), if_pos (by omega)]
  rw [show GameProgress.next_monster_cyclic
    { s.game_progress with
      num_living_monsters := s.game_progress.num_living_monsters - 1 }
    s.player_entity = some nm from hnext]
  exact ⟨_, rfl, rfl, rfl, rfl, rfl⟩

/-- Witness for C2 as amended, at the concrete dead-player state. -/
theorem dead_player_precheck_then_action_witness :
    (cexDeadPlayer.player_health.health ≤ 0 ∧
      cexDeadPlayer.game_progress.next_monster_cyclic
        cexDeadPlayer.player_entity = some 2) ∧
    (∃ r, key_press_handler KeyPress.A cexDeadPlayer 0 100 100 tsOne = some r ∧
      r.enemy_health.health = cexDeadPlayer.enemy_health.health -
        (calculate_turn cexDeadPlayer.player_stg cexDeadPlayer.player_def
          cexDeadPlayer.player_type 0 cexDeadPlayer.enemy_stg
          cexDeadPlayer.enemy_def cexDeadPlayer.enemy_type 0 tsOne 100 100).1 ∧
      r.selected = tagInsert (tagRemove (tagInsert (tagRemove
        cexDeadPlayer.selected cexDeadPlayer.player_entity) 2)
        cexDeadPlayer.player_entity) 2 ∧
      r.game_progress.num_living_monsters =
        cexDeadPlayer.game_progress.num_living_monsters - 1 ∧
      r.next_state = none) :=
  ⟨⟨by decide, by decide⟩,
   dead_player_precheck_then_action cexDeadPlayer 0 100 100 tsOne 2
     (by decide) (by decide) (by decide) (by decide)⟩

/-- Claim C1 evaluated at the failing input: killing the boss increments
num_boss_defeated to 1, removes the Boss tag and spawns the quest NPC, but
the living party monster 2 is leveled up by a single +1 (level 1 to 2),
exactly as in the non-boss branch, not by the two separate +1 applications
the claim requires. -/
theorem boss_defeat_levels_once_failing_input :
    (key_press_handler KeyPress.A cexBossKill 0 100 100 tsOne).map
        (fun r => (r.game_progress.num_boss_defeated,
          (lookupStats r.game_progress.monster_entity_to_stats 2).map
            (fun st => st.lvl.level),
          r.npc_spawned, r.boss_tag_removed, r.enemy_tag_removed)) =
      some (1, some 2, true, true, true) ∧
    (lookupStats cexBossKill.game_progress.monster_entity_to_stats 2).map
        (fun st => st.lvl.level) = some 1 := by decide

/-- Claim C4 evaluated at the failing input: using the heal item with one
in the inventory heals the party (the fallen monster 2 moves from -10 to
-7, the selected monster from 5 to 8, inventory drops to 0), yet
num_living_monsters is incremented from 1 to 2 although the fallen monster
stays at health ≤ 0 — the increment is not restricted to monsters the
heal brings above 0. -/
theorem heal_counts_unrevived_at_failing_input :
    (key_press_handler KeyPress.Key1 cexHeal 0 0 0 tsOne).map
        (fun r => (r.game_progress.num_living_monsters,
          r.party_monsters.map (fun pm => pm.hp.health),
          r.game_progress.player_inventory, r.player_health.health)) =
      some (2, [-7], [0, 0], 8) ∧
    cexHeal.game_progress.num_living_monsters = 1 := by decide

/-! ## Enemy-stats preservation lemmas for claim C3 -/

theorem lookupStats_removeStats_self (m : List (Entity × MonsterStats))
    (e : Entity) : lookupStats (removeStats m e) e = none := by
  induction m with
  | nil => rfl
  | cons p rest ih =>
    by_cases h : p.1 = e
    · simpa [removeStats, List.filter_cons, h] using ih
    · simpa [removeStats, List.filter_cons, h, lookupStats] using ih

theorem monster_level_up_in_enemy_stats (gp : GameProgress) (m : Entity)
    (b : Nat) (gp1 : GameProgress) (st : MonsterStats)
    (h : monster_level_up_in gp m b = some (gp1, st)) :
    gp1.enemy_stats = gp.enemy_stats := by
  unfold monster_level_up_in at h
  cases hl : lookupStats gp.monster_entity_to_stats m with
  | none => rw [hl] at h; cases h
  | some st0 =>
    rw [hl] at h
    simp only [Option.some.injEq, Prod.mk.injEq] at h
    rw [← h.1]

theorem level_up_party_enemy_stats (party : List PartyEntry) :
    ∀ gp gp1 p1, level_up_party gp party = some (gp1, p1) →
      gp1.enemy_stats = gp.enemy_stats := by
  induction party with
  | nil =>
    intro gp gp1 p1 h
    simp only [level_up_party, Option.some.injEq, Prod.mk.injEq] at h
    rw [← h.1]
  | cons pm rest ih =>
    intro gp gp1 p1 h
    unfold level_up_party at h
    cases h1 : monster_level_up_in gp pm.entity 1 with
    | none => rw [h1] at h; cases h
    | some pr =>
      obtain ⟨gpa, st⟩ := pr
      rw [h1] at h
      dsimp only at h
      cases h2 : level_up_party gpa rest with
      | none => rw [h2] at h; cases h
      | some pr2 =>
        obtain ⟨gpb, rest1⟩ := pr2
        rw [h2] at h
        simp only [Option.some.injEq, Prod.mk.injEq] at h
        rw [← h.1, ih gpa gpb rest1 h2,
          monster_level_up_in_enemy_stats gp pm.entity 1 gpa st h1]

theorem heal_party_enemy_stats (party : List PartyEntry) :
    ∀ gp heal_amount,
      (heal_party gp party heal_amount).1.enemy_stats = gp.enemy_stats := by
  induction party with
  | nil => intro gp heal_amount; rfl
  | cons pm rest ih =>
    intro gp heal_amount
    unfold heal_party
    by_cases h : pm.hp.health ≤ 0
    · simp only [if_pos h]
      rw [ih]
    · simp only [if_neg h]
      rw [ih]

theorem end_battle_enemy_stats (gp : GameProgress) (sel : List Entity)
    (a b : Entity) (gp1 : GameProgress) (sel1 : List Entity)
    (h : end_battle gp sel a b = some (gp1, sel1)) :
    lookupStats gp1.enemy_stats b = none := by
  unfold end_battle at h
  dsimp only at h
  cases h0 : gp.monster_id_entity.get? 0 with
  | none =>
    rw [h0] at h
    cases h
  | some first =>
    rw [h0] at h
    simp only [Option.some.injEq, Prod.mk.injEq] at h
    rw [← h.1]
    exact lookupStats_removeStats_self gp.enemy_stats b

theorem attack_branch_enemy_stats (pa : Nat) (s : BattleState)
    (gp0 : GameProgress) (sel0 : List Entity) (etag0 : Bool)
    (ns0 : Option GameState) (ea pr er : Nat) (ts : TypeSystem)
    (r : TickResult)
    (h : attack_branch pa s gp0 sel0 etag0 ns0 ea pr er ts = some r) :
    (r.enemy_tag_removed = true ∧
        lookupStats r.game_progress.enemy_stats s.enemy_entity = none) ∨
    (r.enemy_tag_removed = etag0 ∧
        lookupStats r.game_progress.enemy_stats s.enemy_entity =
          lookupStats gp0.enemy_stats s.enemy_entity) := by
  simp only [attack_branch] at h
  repeat' split at h
  all_goals
    first
      | exact Option.noConfusion h
      | (injection h with h1; subst h1
         rename_i heq
         exact Or.inl ⟨rfl, end_battle_enemy_stats _ _ _ _ _ _ heq⟩)
      | (injection h with h1; subst h1; exact Or.inr ⟨rfl, rfl⟩)

theorem dispatch_key_enemy_stats (input : KeyPress) (s : BattleState)
    (gp0 : GameProgress) (sel0 : List Entity) (etag0 : Bool)
    (ns0 : Option GameState) (ea pr er : Nat) (ts : TypeSystem)
    (r : TickResult)
    (h : dispatch_key input s gp0 sel0 etag0 ns0 ea pr er ts = some r) :
    (r.enemy_tag_removed = true ∧
        lookupStats r.game_progress.enemy_stats s.enemy_entity = none) ∨
    (r.enemy_tag_removed = etag0 ∧
        lookupStats r.game_progress.enemy_stats s.enemy_entity =
          lookupStats gp0.enemy_stats s.enemy_entity) ∨
    (input = KeyPress.Q ∧ r.enemy_tag_removed = true ∧
        lookupStats r.game_progress.enemy_stats s.enemy_entity =
          lookupStats gp0.enemy_stats s.enemy_entity) := by
  cases input
  case A =>
    simp only [dispatch_key] at h
    rcases attack_branch_enemy_stats 0 s gp0 sel0 etag0 ns0 ea pr er ts r h
      with h1 | h1
    · exact Or.inl h1
    · exact Or.inr (Or.inl h1)
  case E =>
    simp only [dispatch_key] at h
    rcases attack_branch_enemy_stats 2 s gp0 sel0 etag0 ns0 ea pr er ts r h
      with h1 | h1
    · exact Or.inl h1
    · exact Or.inr (Or.inl h1)
  case Q =>
    simp only [dispatch_key] at h
    injection h with h1
    subst h1
    exact Or.inr (Or.inr ⟨rfl, rfl, rfl⟩)
  case D =>
    simp only [dispatch_key] at h
    injection h with h1
    subst h1
    exact Or.inr (Or.inl ⟨rfl, rfl⟩)
  case C =>
    simp only [dispatch_key] at h
    split at h <;>
      (injection h with h1; subst h1; exact Or.inr (Or.inl ⟨rfl, rfl⟩))
  case Key1 =>
    simp only [dispatch_key] at h
    split at h
    · injection h with h1
      subst h1
      refine Or.inr (Or.inl ⟨rfl, ?_⟩)
      show lookupStats (heal_party _ s.party_monsters _).1.enemy_stats
        s.enemy_entity = _
      rw [heal_party_enemy_stats s.party_monsters]
    · injection h with h1
      subst h1
      exact Or.inr (Or.inl ⟨rfl, rfl⟩)
  case Key2 =>
    simp only [dispatch_key] at h
    split at h <;>
      (injection h with h1; subst h1; exact Or.inr (Or.inl ⟨rfl, rfl⟩))
  case NoKey =>
    simp only [dispatch_key] at h
    injection h with h1
    subst h1
    exact Or.inr (Or.inl ⟨rfl, rfl⟩)

/-- Counterexample to claim C3 as stated: aborting the battle with Q
strips the Enemy tag and transitions out, yet the enemy_stats entry of the
aborted enemy is still present afterwards — it is not removed at the step
the tag is stripped. -/
theorem abort_keeps_enemy_stats_cex :
    (key_press_handler KeyPress.Q cexAbort 0 0 0 tsOne).map
        (fun r => (r.enemy_tag_removed, r.next_state,
          lookupStats r.game_progress.enemy_stats cexAbort.enemy_entity)) =
      some (true, some GameState.Playing, some stEnemy) ∧
    lookupStats cexAbort.game_progress.enemy_stats cexAbort.enemy_entity =
      some stEnemy := by decide

/-- Claim C3 as amended: on every battle tick that returns a result, either
the Enemy tag is stripped and the enemy_stats entry of the current enemy is
gone (victory and player-defeat endings), or the tag stays and the entry is
exactly what it was, or — only on the Abort key — the tag is stripped
while the entry is left in place. -/
theorem enemy_stats_tag_lifecycle (input : KeyPress) (s : BattleState)
    (ea pr er : Nat) (ts : TypeSystem) (r : TickResult)
    (hstep : key_press_handler input s ea pr er ts = some r) :
    (r.enemy_tag_removed = true ∧
        lookupStats r.game_progress.enemy_stats s.enemy_entity = none) ∨
    (r.enemy_tag_removed = false ∧
        lookupStats r.game_progress.enemy_stats s.enemy_entity =
          lookupStats s.game_progress.enemy_stats s.enemy_entity) ∨
    (input = KeyPress.Q ∧ r.enemy_tag_removed = true ∧
        lookupStats r.game_progress.enemy_stats s.enemy_entity =
          lookupStats s.game_progress.enemy_stats s.enemy_entity) := by
  unfold key_press_handler at hstep
  by_cases hdead : s.player_health.health ≤ 0
  · rw [if_pos hdead] at hstep
    cases hnx : s.game_progress.next_monster_cyclic s.player_entity with
    | none =>
      rw [hnx] at hstep
      cases heb : end_battle s.game_progress s.selected s.player_entity
          s.enemy_entity with
      | none =>
        rw [heb] at hstep
        dsimp only at hstep
        exact Option.noConfusion hstep
      | some p =>
        obtain ⟨gpA, selA⟩ := p
        rw [heb] at hstep
        dsimp only at hstep
        have hA : lookupStats gpA.enemy_stats s.enemy_entity = none :=
          end_battle_enemy_stats _ _ _ _ _ _ heb
        rcases dispatch_key_enemy_stats input s gpA selA true
          (some GameState.Playing) ea pr er ts r hstep with h1 | h1 | h1
        · exact Or.inl h1
        · exact Or.inl ⟨h1.1, h1.2.trans hA⟩
        · exact Or.inl ⟨h1.2.1, h1.2.2.trans hA⟩
    | some nm =>
      rw [hnx] at hstep
      dsimp only at hstep
      rcases dispatch_key_enemy_stats input s s.game_progress
        (tagInsert (tagRemove s.selected s.player_entity) nm) false none
        ea pr er ts r hstep with h1 | h1 | h1
      · exact Or.inl h1
      · exact Or.inr (Or.inl h1)
      · exact Or.inr (Or.inr h1)
  · rw [if_neg hdead] at hstep
    dsimp only at hstep
    rcases dispatch_key_enemy_stats input s s.game_progress s.selected
      false none ea pr er ts r hstep with h1 | h1 | h1
    · exact Or.inl h1
    · exact Or.inr (Or.inl h1)
    · exact Or.inr (Or.inr h1)

/-- Witness for C3 as amended, on a keyless tick of a concrete battle. -/
theorem enemy_stats_tag_lifecycle_witness :
    (key_press_handler KeyPress.NoKey witAlivePlayer 0 0 0 tsOne =
      some (carryResult witAlivePlayer witAlivePlayer.game_progress
        witAlivePlayer.selected false none)) ∧
    (((carryResult witAlivePlayer witAlivePlayer.game_progress
          witAlivePlayer.selected false none).enemy_tag_removed = true ∧
        lookupStats (carryResult witAlivePlayer witAlivePlayer.game_progress
            witAlivePlayer.selected false none).game_progress.enemy_stats
          witAlivePlayer.enemy_entity = none) ∨
      ((carryResult witAlivePlayer witAlivePlayer.game_progress
          witAlivePlayer.selected false none).enemy_tag_removed = false ∧
        lookupStats (carryResult witAlivePlayer witAlivePlayer.game_progress
            witAlivePlayer.selected false none).game_progress.enemy_stats
          witAlivePlayer.enemy_entity =
        lookupStats witAlivePlayer.game_progress.enemy_stats
          witAlivePlayer.enemy_entity) ∨
      (KeyPress.NoKey = KeyPress.Q ∧
        (carryResult witAlivePlayer witAlivePlayer.game_progress
          witAlivePlayer.selected false none).enemy_tag_removed = true ∧
        lookupStats (carryResult witAlivePlayer witAlivePlayer.game_progress
            witAlivePlayer.selected false none).game_progress.enemy_stats
          witAlivePlayer.enemy_entity =
        lookupStats witAlivePlayer.game_progress.enemy_stats
          witAlivePlayer.enemy_entity)) :=
  ⟨by decide,
   enemy_stats_tag_lifecycle KeyPress.NoKey witAlivePlayer 0 0 0 tsOne
     (carryResult witAlivePlayer witAlivePlayer.game_progress
       witAlivePlayer.selected false none) (by decide)⟩




